import Mathlib

/-!
Shallow embedding of pypower/mosek_options.py (function mosek_options and its
helper feval) together with theorems checking the natural-language
specification of the option resolver against the code.

Conventions of the embedding:
* Python dict values stored in an options dict are modelled by MVal
  (a rational number or a string).
* The param dict opt is an association list List (String × MVal); setParam is
  the dict item assignment opt[k] = v (replace in place if the key exists,
  append otherwise) and getParam is lookup.
* The second argument ppopt can be Python None, a string (FNAME) or an
  options vector; PPArg has one constructor per case. Subscripting is
  PPArg.getItem, which raises a TypeError on None and on a string, exactly as
  Python does.
* The external call mosekopt(symbcon echo(0)) is passed in as a value
  mosekoptRes : Except PyErr SymbCon; an error models an unavailable symbol
  table, which the function does not catch.
* User hook functions are resolved by feval through an environment
  env : String → Option HookFn; a missing name is a NameError and a hook body
  may itself raise, both uncaught, as in the Python feval based on eval.
* The Python function body finishes without a return statement, so the call
  itself returns Python None. mosek_optionsOpt is the transcription of the
  body and yields the locally computed opt dict for inspection;
  mosek_options is the actual call result, whose value is Option.none
  standing for the Python None that a fall-off-the-end function returns.
-/

/-- Values held in a MOSEK param dict: numbers or strings. -/
inductive MVal where
  | num (q : ℚ)
  | str (s : String)
deriving DecidableEq, Repr

/-- Errors a call can raise: a Python TypeError, a NameError from eval of a
missing hook name, failure of the external mosekopt call, or an exception
raised inside a user hook. -/
inductive PyErr where
  | typeError (msg : String)
  | nameError (nm : String)
  | mosekError (msg : String)
  | hookError (msg : String)
deriving DecidableEq, Repr

/-- The MATPOWER options vector entries read by mosek_options
(dict access by name in the source). -/
structure PPOpt where
  OPF_VIOLATION : ℚ
  VERBOSE : ℚ
  MOSEK_LP_ALG : ℚ
  MOSEK_MAX_IT : ℚ
  MOSEK_GAP_TOL : ℚ
  MOSEK_MAX_TIME : ℚ
  MOSEK_NUM_THREADS : ℚ
  MOSEK_OPT : ℚ
deriving DecidableEq, Repr

/-- The symbolic constants returned by mosekopt(symbcon echo(0)) that
mosek_options consults. -/
structure SymbCon where
  MSK_OPTIMIZER_FREE : ℚ
  MSK_OPTIMIZER_INTPNT : ℚ
  MSK_OPTIMIZER_PRIMAL_SIMPLEX : ℚ
  MSK_OPTIMIZER_DUAL_SIMPLEX : ℚ
  MSK_OPTIMIZER_PRIMAL_DUAL_SIMPLEX : ℚ
  MSK_OPTIMIZER_FREE_SIMPLEX : ℚ
  MSK_OPTIMIZER_CONCURRENT : ℚ
deriving DecidableEq, Repr

/-- The second argument of mosek_options: Python None, a string FNAME, or a
MATPOWER options vector. -/
inductive PPArg where
  | none
  | str (s : String)
  | vec (v : PPOpt)
deriving DecidableEq, Repr

/-- Python isinstance(x, basestring). -/
def isinstance_basestring : PPArg → Bool
  | PPArg.str _ => true
  | _ => false

/-- The string content of a PPArg known to be a string (used only on that
branch). -/
def pparg_string : PPArg → String
  | PPArg.str s => s
  | _ => ""

/-- Subscripting the second argument, ppopt[k]. On a vector it reads the named
entry; on Python None or a string it raises a TypeError as Python would. -/
def PPArg.getItem : PPArg → String → Except PyErr ℚ
  | PPArg.vec v, k =>
      if k = "OPF_VIOLATION" then Except.ok v.OPF_VIOLATION
      else if k = "VERBOSE" then Except.ok v.VERBOSE
      else if k = "MOSEK_LP_ALG" then Except.ok v.MOSEK_LP_ALG
      else if k = "MOSEK_MAX_IT" then Except.ok v.MOSEK_MAX_IT
      else if k = "MOSEK_GAP_TOL" then Except.ok v.MOSEK_GAP_TOL
      else if k = "MOSEK_MAX_TIME" then Except.ok v.MOSEK_MAX_TIME
      else if k = "MOSEK_NUM_THREADS" then Except.ok v.MOSEK_NUM_THREADS
      else if k = "MOSEK_OPT" then Except.ok v.MOSEK_OPT
      else Except.error (PyErr.typeError "KeyError")
  | PPArg.none, _ => Except.error (PyErr.typeError "NoneType object is not subscriptable")
  | PPArg.str _, _ => Except.error (PyErr.typeError "string indices must be integers")

/-- Dict item assignment opt[k] = v on the association-list model: replace the
first binding of k in place, or append a new binding. -/
def setParam (m : List (String × MVal)) (k : String) (v : MVal) : List (String × MVal) :=
  match m with
  | [] => [(k, v)]
  | p :: rest => if p.1 = k then (k, v) :: rest else p :: setParam rest k v

/-- Dict lookup opt[k] on the association-list model. -/
def getParam (m : List (String × MVal)) (k : String) : Option MVal :=
  match m with
  | [] => Option.none
  | p :: rest => if p.1 = k then Option.some p.2 else getParam rest k

/-- Signature of a user hook: it receives the current opt dict and, in the
two-argument calling convention, the options vector; it may raise. -/
def HookFn : Type :=
  List (String × MVal) → Option PPArg → Except PyErr (List (String × MVal))

/-- Environment in which feval resolves hook names by eval. -/
def HookEnv : Type := String → Option HookFn

/-- Transcription of feval: eval(funcName) raises a NameError when the name is
not defined, otherwise the resolved function is applied to the arguments. -/
def feval (env : HookEnv) (funcName : String) (opt : List (String × MVal))
    (pp : Option PPArg) : Except PyErr (List (String × MVal)) :=
  match env funcName with
  | Option.none => Except.error (PyErr.nameError funcName)
  | Option.some f => f opt pp

/-- The overrides loop at the end of mosek_options:
for each key of the overrides dict, opt[key] = overrides[key]. -/
def applyOverrides (overrides : Option (List (String × MVal)))
    (opt : List (String × MVal)) : List (String × MVal) :=
  match overrides with
  | Option.some ov => ov.foldl (fun o p => setParam o p.1 p.2) opt
  | Option.none => opt

/-- Transcription of the body of mosek_options(overrides, ppopt), returning
the opt dict as it stands when control reaches the end of the function. -/
def mosek_optionsOpt (env : HookEnv) (mosekoptRes : Except PyErr SymbCon)
    (overrides : Option (List (String × MVal))) (ppopt : PPArg) :
    Except PyErr (List (String × MVal)) := do
  -- defaults: verbose = 2; gaptol = 0; fname = the empty string
  let fname : String := ""
  -- r, res = mosekopt(symbcon echo(0)); sc = res[symbcon]
  let sc ← mosekoptRes
  -- second argument: note the source tests (ppopt == None) and only inside
  -- that branch tests isinstance(ppopt, basestring)
  let argres ←
    (if ppopt = PPArg.none then
      (if isinstance_basestring ppopt then
        -- fname = ppopt; have_ppopt = False
        pure (pparg_string ppopt, false)
      else do
        -- have_ppopt = True; verbose = ppopt[VERBOSE]
        let _verbose ← PPArg.getItem ppopt "VERBOSE"
        -- if ppopt[MOSEK_OPT] is truthy: fname = the literal mosek_user_options_#d
        -- (the value ppopt[MOSEK_OPT] sits in a trailing comment in the
        -- source, so the assigned name is this literal string)
        let mopt ← PPArg.getItem ppopt "MOSEK_OPT"
        pure (if mopt ≠ 0 then "mosek_user_options_#d" else fname, true))
    else
      pure (fname, false) : Except PyErr (String × Bool))
  let fname := argres.1
  let have_ppopt := argres.2
  -- opt = {}
  let opt : List (String × MVal) := []
  -- solution algorithm
  let opt ←
    (if have_ppopt then do
      let alg ← PPArg.getItem ppopt "MOSEK_LP_ALG"
      let opt :=
        if alg = sc.MSK_OPTIMIZER_FREE ∨
            alg = sc.MSK_OPTIMIZER_INTPNT ∨
            alg = sc.MSK_OPTIMIZER_PRIMAL_SIMPLEX ∨
            alg = sc.MSK_OPTIMIZER_DUAL_SIMPLEX ∨
            alg = sc.MSK_OPTIMIZER_PRIMAL_DUAL_SIMPLEX ∨
            alg = sc.MSK_OPTIMIZER_FREE_SIMPLEX ∨
            alg = sc.MSK_OPTIMIZER_CONCURRENT then
          setParam opt "MSK_IPAR_OPTIMIZER" (MVal.num alg)
        else
          setParam opt "MSK_IPAR_OPTIMIZER" (MVal.num sc.MSK_OPTIMIZER_FREE)
      let viol ← PPArg.getItem ppopt "OPF_VIOLATION"
      let opt := setParam opt "MSK_DPAR_INTPNT_TOL_PFEAS" (MVal.num (viol / 500))
      let maxit ← PPArg.getItem ppopt "MOSEK_MAX_IT"
      let opt :=
        if maxit ≠ 0 then setParam opt "MSK_IPAR_INTPNT_MAX_ITERATIONS" (MVal.num maxit)
        else opt
      let gap ← PPArg.getItem ppopt "MOSEK_GAP_TOL"
      let opt :=
        if gap ≠ 0 then setParam opt "MSK_DPAR_INTPNT_TOL_REL_GAP" (MVal.num gap)
        else opt
      let mtime ← PPArg.getItem ppopt "MOSEK_MAX_TIME"
      let opt :=
        if mtime ≠ 0 then setParam opt "MSK_DPAR_OPTIMIZER_MAX_TIME" (MVal.num mtime)
        else opt
      let nthreads ← PPArg.getItem ppopt "MOSEK_NUM_THREADS"
      let opt :=
        if nthreads ≠ 0 then setParam opt "MSK_IPAR_INTPNT_NUM_THREADS" (MVal.num nthreads)
        else opt
      pure opt
    else
      pure (setParam opt "MSK_IPAR_OPTIMIZER" (MVal.num sc.MSK_OPTIMIZER_FREE))
      : Except PyErr (List (String × MVal)))
  -- call user function to modify defaults
  let opt ←
    (if fname.length > 0 then
      if have_ppopt then feval env fname opt (Option.some ppopt)
      else feval env fname opt Option.none
    else pure opt : Except PyErr (List (String × MVal)))
  -- apply overrides
  let opt := applyOverrides overrides opt
  pure opt

/-- The actual call result of mosek_options: the body runs (for its raised
exceptions) but the source has no return statement, so a completed call
returns Python None, modelled by Option.none. -/
def mosek_options (env : HookEnv) (mosekoptRes : Except PyErr SymbCon)
    (overrides : Option (List (String × MVal))) (ppopt : PPArg) :
    Except PyErr (Option (List (String × MVal))) :=
  (mosek_optionsOpt env mosekoptRes overrides ppopt).map (fun _ => Option.none)

/-- Hook environment with no user hook defined. -/
def emptyHooks : HookEnv := fun _ => Option.none

/-- Concrete symbol table used as a test double for the external
mosekopt symbcon call (the seven optimizer codes, pairwise distinct). -/
def scTest : SymbCon :=
  ⟨0, 4, 1, 2, 3, 5, 6⟩

/-- Concrete options vector used in counterexamples: it requests the
interior-point algorithm (code 4 in scTest), an iteration cap of 100, a
violation tolerance of 500 and user option file number 3. -/
def ppTest : PPOpt :=
  ⟨500, 2, 4, 100, 0, 0, 0, 3⟩

/-- Evaluation lemma: a failing mosekopt symbcon call propagates out of the
body untouched. -/
theorem mosek_optionsOpt_symbcon_fail (env : HookEnv) (e : PyErr)
    (overrides : Option (List (String × MVal))) (ppopt : PPArg) :
    mosek_optionsOpt env (Except.error e) overrides ppopt = Except.error e := rfl

/-- Evaluation lemma: with ppopt = Python None the body subscripts None and
raises a TypeError. -/
theorem mosek_optionsOpt_arg_none (env : HookEnv) (sc : SymbCon)
    (overrides : Option (List (String × MVal))) :
    mosek_optionsOpt env (Except.ok sc) overrides PPArg.none =
      Except.error (PyErr.typeError "NoneType object is not subscriptable") := rfl

/-- Evaluation lemma: with a string second argument the body takes the
have_ppopt = False branch with an empty fname, so the result is the default
single-entry dict with the overrides folded in; no hook runs and the string is
never consulted. -/
theorem mosek_optionsOpt_arg_str (env : HookEnv) (sc : SymbCon)
    (overrides : Option (List (String × MVal))) (s : String) :
    mosek_optionsOpt env (Except.ok sc) overrides (PPArg.str s) =
      Except.ok (applyOverrides overrides
        [("MSK_IPAR_OPTIMIZER", MVal.num sc.MSK_OPTIMIZER_FREE)]) := rfl

/-- Evaluation lemma: with a vector second argument the body also takes the
have_ppopt = False branch, so no vector entry is read, no hook runs, and the
result is the default single-entry dict with the overrides folded in. -/
theorem mosek_optionsOpt_arg_vec (env : HookEnv) (sc : SymbCon)
    (overrides : Option (List (String × MVal))) (v : PPOpt) :
    mosek_optionsOpt env (Except.ok sc) overrides (PPArg.vec v) =
      Except.ok (applyOverrides overrides
        [("MSK_IPAR_OPTIMIZER", MVal.num sc.MSK_OPTIMIZER_FREE)]) := rfl

theorem getParam_setParam_self (m : List (String × MVal)) (k : String) (v : MVal) :
    getParam (setParam m k v) k = Option.some v := by
  induction m with
  | nil => simp [setParam, getParam]
  | cons p rest ih =>
    by_cases hp : p.1 = k
    · simp [setParam, getParam, hp]
    · simp [setParam, getParam, hp, ih]

theorem getParam_setParam_ne (m : List (String × MVal)) (k k2 : String) (v : MVal)
    (h : k2 ≠ k) : getParam (setParam m k v) k2 = getParam m k2 := by
  have hne : ¬(k = k2) := fun he => h he.symm
  induction m with
  | nil => simp only [setParam, getParam, if_neg hne]
  | cons p rest ih =>
    by_cases hp : p.1 = k
    · simp only [setParam, if_pos hp, getParam, hp, if_neg hne]
    · simp only [setParam, if_neg hp, getParam, ih]

theorem getParam_foldl_not_mem (ov : List (String × MVal)) (m : List (String × MVal))
    (k : String) (h : k ∉ ov.map Prod.fst) :
    getParam (ov.foldl (fun o p => setParam o p.1 p.2) m) k = getParam m k := by
  induction ov generalizing m with
  | nil => rfl
  | cons q rest ih =>
    simp only [List.map, List.mem_cons] at h
    push_neg at h
    simp only [List.foldl]
    rw [ih (setParam m q.1 q.2) h.2, getParam_setParam_ne m q.1 k q.2 h.1]

theorem getParam_foldl_mem (ov : List (String × MVal)) (m : List (String × MVal))
    (k : String) (v : MVal) (hnd : (ov.map Prod.fst).Nodup) (hm : (k, v) ∈ ov) :
    getParam (ov.foldl (fun o p => setParam o p.1 p.2) m) k = Option.some v := by
  induction ov generalizing m with
  | nil => cases hm
  | cons q rest ih =>
    simp only [List.map, List.nodup_cons] at hnd
    rcases List.mem_cons.mp hm with heq | hmem
    · subst heq
      simp only [List.foldl_cons]
      rw [getParam_foldl_not_mem rest (setParam m k v) k hnd.1]
      exact getParam_setParam_self m k v
    · simp only [List.foldl_cons]
      exact ih (setParam m q.1 q.2) hnd.2 hmem

/-- C1: the spec claims every call of mosek_options returns a flat
ParameterMapping; in the source the body ends without a return statement, so
every call that completes returns Python None (Option.none here) and never a
param dict. -/
theorem C1_call_returns_python_none (env : HookEnv) (mosekoptRes : Except PyErr SymbCon)
    (overrides : Option (List (String × MVal))) (ppopt : PPArg)
    (r : Option (List (String × MVal)))
    (h : mosek_options env mosekoptRes overrides ppopt = Except.ok r) :
    r = Option.none := by
  unfold mosek_options at h
  cases hx : mosek_optionsOpt env mosekoptRes overrides ppopt with
  | error e => rw [hx] at h; exact absurd h (by simp [Except.map])
  | ok o =>
    rw [hx] at h
    simpa [Except.map] using h.symm

/-- Witness for C1 at a concrete input: a successful call with a string second
argument whose value is Python None. -/
theorem C1_call_returns_python_none_witness :
    mosek_options emptyHooks (Except.ok scTest) Option.none (PPArg.str "userfn") =
      Except.ok Option.none ∧
    (Option.none : Option (List (String × MVal))) = Option.none :=
  ⟨rfl, C1_call_returns_python_none emptyHooks (Except.ok scTest) Option.none
    (PPArg.str "userfn") Option.none rfl⟩

/-- C2: the spec claims ppopt = None yields the default-only mapping with no
vector read and no hook; in the source the test (ppopt == None) routes None
into the vector branch, which subscripts None and raises a TypeError before
any option is set. -/
theorem C2_none_selector_raises (env : HookEnv) (sc : SymbCon)
    (overrides : Option (List (String × MVal))) :
    mosek_optionsOpt env (Except.ok sc) overrides PPArg.none =
      Except.error (PyErr.typeError "NoneType object is not subscriptable") := rfl

/-- C3: the spec claims a vector selector invokes the hook
mosek_user_options_ + MOSEK_OPT exactly when MOSEK_OPT is non-zero; in the
source a non-None second argument always takes the have_ppopt = False branch
with an empty fname, so for every hook environment and every vector (with
MOSEK_OPT zero or not) no hook is ever invoked and the pre-override dict is
just the default entry. -/
theorem C3_vector_selector_no_hook (env : HookEnv) (sc : SymbCon)
    (overrides : Option (List (String × MVal))) (v : PPOpt) :
    mosek_optionsOpt env (Except.ok sc) overrides (PPArg.vec v) =
      Except.ok (applyOverrides overrides
        [("MSK_IPAR_OPTIMIZER", MVal.num sc.MSK_OPTIMIZER_FREE)]) := rfl

/-- C4: the spec claims a string selector makes the named hook run on the
default mapping and replace it wholesale; in the source the isinstance test is
nested inside the (ppopt == None) branch, so a string second argument leaves
fname empty and the result is the default dict plus overrides for every hook
environment: the hook never runs. -/
theorem C4_string_selector_no_hook (env : HookEnv) (sc : SymbCon)
    (overrides : Option (List (String × MVal))) (s : String) :
    mosek_optionsOpt env (Except.ok sc) overrides (PPArg.str s) =
      Except.ok (applyOverrides overrides
        [("MSK_IPAR_OPTIMIZER", MVal.num sc.MSK_OPTIMIZER_FREE)]) := rfl

/-- C5: overrides are applied last, key by key, so when the overrides dict has
no duplicate keys every one of its entries is present verbatim in the computed
opt dict of any completing call. -/
theorem C5_overrides_always_win (env : HookEnv) (mosekoptRes : Except PyErr SymbCon)
    (ov : List (String × MVal)) (ppopt : PPArg) (res : List (String × MVal))
    (k : String) (v : MVal)
    (hnd : (ov.map Prod.fst).Nodup) (hmem : (k, v) ∈ ov)
    (h : mosek_optionsOpt env mosekoptRes (Option.some ov) ppopt = Except.ok res) :
    getParam res k = Option.some v := by
  cases mosekoptRes with
  | error e =>
    rw [mosek_optionsOpt_symbcon_fail] at h
    exact absurd h (by simp)
  | ok sc =>
    cases ppopt with
    | none =>
      rw [mosek_optionsOpt_arg_none] at h
      exact absurd h (by simp)
    | str s =>
      rw [mosek_optionsOpt_arg_str] at h
      have hres : applyOverrides (Option.some ov)
          [("MSK_IPAR_OPTIMIZER", MVal.num sc.MSK_OPTIMIZER_FREE)] = res := by
        simpa using h
      rw [← hres]
      exact getParam_foldl_mem ov _ k v hnd hmem
    | vec v2 =>
      rw [mosek_optionsOpt_arg_vec] at h
      have hres : applyOverrides (Option.some ov)
          [("MSK_IPAR_OPTIMIZER", MVal.num sc.MSK_OPTIMIZER_FREE)] = res := by
        simpa using h
      rw [← hres]
      exact getParam_foldl_mem ov _ k v hnd hmem

/-- Witness for C5 at a concrete input: the override entry replacing the
algorithm selector survives into the computed dict. -/
theorem C5_overrides_always_win_witness :
    ((([("MSK_IPAR_OPTIMIZER", MVal.str "MSK_OPTIMIZER_DUAL_SIMPLEX")] :
        List (String × MVal)).map Prod.fst).Nodup ∧
      ("MSK_IPAR_OPTIMIZER", MVal.str "MSK_OPTIMIZER_DUAL_SIMPLEX") ∈
        ([("MSK_IPAR_OPTIMIZER", MVal.str "MSK_OPTIMIZER_DUAL_SIMPLEX")] :
          List (String × MVal)) ∧
      mosek_optionsOpt emptyHooks (Except.ok scTest)
        (Option.some [("MSK_IPAR_OPTIMIZER", MVal.str "MSK_OPTIMIZER_DUAL_SIMPLEX")])
        (PPArg.vec ppTest) =
        Except.ok [("MSK_IPAR_OPTIMIZER", MVal.str "MSK_OPTIMIZER_DUAL_SIMPLEX")]) ∧
    getParam [("MSK_IPAR_OPTIMIZER", MVal.str "MSK_OPTIMIZER_DUAL_SIMPLEX")]
      "MSK_IPAR_OPTIMIZER" = Option.some (MVal.str "MSK_OPTIMIZER_DUAL_SIMPLEX") :=
  ⟨⟨by decide, by decide, rfl⟩,
    C5_overrides_always_win emptyHooks (Except.ok scTest)
      [("MSK_IPAR_OPTIMIZER", MVal.str "MSK_OPTIMIZER_DUAL_SIMPLEX")]
      (PPArg.vec ppTest)
      [("MSK_IPAR_OPTIMIZER", MVal.str "MSK_OPTIMIZER_DUAL_SIMPLEX")]
      "MSK_IPAR_OPTIMIZER" (MVal.str "MSK_OPTIMIZER_DUAL_SIMPLEX")
      (by decide) (by decide) rfl⟩

/-- C6: the spec claims a permitted algorithm code in MOSEK_LP_ALG is used
verbatim; with the test vector requesting the interior-point code (a permitted
code, distinct from the free code) the computed dict still holds the free
code, because vector selectors never reach the algorithm-selection branch. -/
theorem C6_permitted_alg_code_ignored :
    ppTest.MOSEK_LP_ALG = scTest.MSK_OPTIMIZER_INTPNT ∧
    scTest.MSK_OPTIMIZER_INTPNT ≠ scTest.MSK_OPTIMIZER_FREE ∧
    mosek_optionsOpt emptyHooks (Except.ok scTest) Option.none (PPArg.vec ppTest) =
      Except.ok [("MSK_IPAR_OPTIMIZER", MVal.num scTest.MSK_OPTIMIZER_FREE)] :=
  ⟨rfl, by decide, rfl⟩

/-- C7: the spec claims the feasibility tolerance is set to OPF_VIOLATION/500,
so the test vector with OPF_VIOLATION = 500 should yield 1; in the computed
dict the parameter is absent altogether, because vector selectors never reach
the tolerance assignment. -/
theorem C7_pfeas_parameter_absent :
    ppTest.OPF_VIOLATION = 500 ∧
    mosek_optionsOpt emptyHooks (Except.ok scTest) Option.none (PPArg.vec ppTest) =
      Except.ok [("MSK_IPAR_OPTIMIZER", MVal.num scTest.MSK_OPTIMIZER_FREE)] ∧
    getParam [("MSK_IPAR_OPTIMIZER", MVal.num scTest.MSK_OPTIMIZER_FREE)]
      "MSK_DPAR_INTPNT_TOL_PFEAS" = Option.none :=
  ⟨rfl, rfl, by decide⟩

/-- C8: the spec claims a non-zero MOSEK_MAX_IT = N sets the iteration cap to
N; with the test vector carrying MOSEK_MAX_IT = 100 the computed dict has no
iteration-cap entry at all, because vector selectors never reach the optional
field assignments. -/
theorem C8_optional_fields_never_applied :
    ppTest.MOSEK_MAX_IT = 100 ∧
    mosek_optionsOpt emptyHooks (Except.ok scTest) Option.none (PPArg.vec ppTest) =
      Except.ok [("MSK_IPAR_OPTIMIZER", MVal.num scTest.MSK_OPTIMIZER_FREE)] ∧
    getParam [("MSK_IPAR_OPTIMIZER", MVal.num scTest.MSK_OPTIMIZER_FREE)]
      "MSK_IPAR_INTPNT_MAX_ITERATIONS" = Option.none :=
  ⟨rfl, rfl, by decide⟩

/-- C9: a failing mosekopt symbcon call does propagate uncaught, as the spec
says; but it is not one of only two fatal conditions: the default call with
ppopt = None is itself fatal, raising a TypeError from subscripting None. -/
theorem C9_symbcon_failure_propagates_and_extra_fatal :
    (∀ (env : HookEnv) (overrides : Option (List (String × MVal)))
        (ppopt : PPArg) (e : PyErr),
      mosek_options env (Except.error e) overrides ppopt = Except.error e) ∧
    mosek_options emptyHooks (Except.ok scTest) Option.none PPArg.none =
      Except.error (PyErr.typeError "NoneType object is not subscriptable") :=
  ⟨fun _ _ _ _ => rfl, rfl⟩

/-- C10: any non-None second argument, string or vector, takes the
have_ppopt = False path with an empty hook name: the result does not depend on
the hook environment or on any vector entry, and the dict before overrides is
exactly the single default algorithm-selector entry. -/
theorem C10_non_none_selector_defaults_path (env : HookEnv) (sc : SymbCon)
    (overrides : Option (List (String × MVal))) (ppopt : PPArg)
    (h : ppopt ≠ PPArg.none) :
    mosek_optionsOpt env (Except.ok sc) overrides ppopt =
      Except.ok (applyOverrides overrides
        [("MSK_IPAR_OPTIMIZER", MVal.num sc.MSK_OPTIMIZER_FREE)]) := by
  cases ppopt with
  | none => exact absurd rfl h
  | str s => exact mosek_optionsOpt_arg_str env sc overrides s
  | vec v => exact mosek_optionsOpt_arg_vec env sc overrides v

/-- Witness for C10 at a concrete input: a string second argument. -/
theorem C10_non_none_selector_defaults_path_witness :
    (PPArg.str "userfn" ≠ PPArg.none) ∧
    mosek_optionsOpt emptyHooks (Except.ok scTest) Option.none (PPArg.str "userfn") =
      Except.ok (applyOverrides Option.none
        [("MSK_IPAR_OPTIMIZER", MVal.num scTest.MSK_OPTIMIZER_FREE)]) :=
  ⟨by decide, C10_non_none_selector_defaults_path emptyHooks scTest Option.none
    (PPArg.str "userfn") (by decide)⟩
